import Mathlib

/-!
Verification of the Honzoraptor31415/website repository.

The repository has two source files:
  - src/routes/docs/tutorials/nextjs/+page.ts : a SvelteKit page-load
    handler that unconditionally throws redirect(303, "/docs/tutorials/nextjs/step-1").
  - src/routes/blog/post/how-to-optimize-your-appwrite-project/+page.markdoc :
    a content document with a front-matter header block and a prose body.

We embed the load handler shallowly: the SvelteKit redirect value is a
structure carrying the HTTP status and the Location path; throwing it is
modelled as the Except.error branch of the handler result.
-/

/-- The value constructed by the redirect helper of the framework:
an HTTP status together with a Location path. -/
structure Redirect where
  status : Nat
  location : String
deriving DecidableEq, Repr

/-- The redirect helper from the framework: builds a Redirect value
from a status and a location, exactly as redirect(status, location). -/
def redirect (status : Nat) (location : String) : Redirect :=
  { status := status, location := location }

/-- The data a page-load handler would return when rendering normally
(SvelteKit page data, a record of key-value pairs). -/
abbrev PageData := List (String × String)

/-- The invocation context of a page-load handler (the load event the
framework passes in: the request URL and the route parameters). The
handler in src/routes/docs/tutorials/nextjs/+page.ts binds no parameter,
so it never inspects this value. -/
structure LoadEvent where
  url : String
  params : List (String × String)
deriving DecidableEq, Repr

/-- The load handler of src/routes/docs/tutorials/nextjs/+page.ts:
it throws redirect(303, "/docs/tutorials/nextjs/step-1") on every
invocation. Throwing is the Except.error branch; returning page data
for normal rendering would be the Except.ok branch. -/
def load (_event : LoadEvent) : Except Redirect PageData :=
  Except.error (redirect 303 "/docs/tutorials/nextjs/step-1")

/-- Status classifications of a redirect, per the spec glossary:
Temporary (HTTP 303: see other, revisit source later) versus
Permanent (HTTP 301: rebind clients). -/
inductive StatusClass where
  | Temporary
  | Permanent
deriving DecidableEq, Repr

/-- Modelled from the spec: the glossary maps status semantics
analogous to HTTP 303 (and the other temporary codes 302, 307) to
Temporary and HTTP 301 (and 308) to Permanent. -/
def classifyStatus (status : Nat) : Option StatusClass :=
  if status = 301 ∨ status = 308 then some StatusClass.Permanent
  else if status = 302 ∨ status = 303 ∨ status = 307 then some StatusClass.Temporary
  else none

/-- A redirect rule: an immutable association of a source path with a
target path and a status. -/
structure RedirectRule where
  source : String
  target : String
  status : Nat
deriving DecidableEq, Repr

/-- The single redirect rule of the repository: the route directory
src/routes/docs/tutorials/nextjs gives the source path, and the handler
body gives the status and target. -/
def nextjsRule : RedirectRule :=
  { source := "/docs/tutorials/nextjs"
  , target := "/docs/tutorials/nextjs/step-1"
  , status := 303 }

/-- Every redirect rule defined in the repository. The only load
handler under src/ that redirects is the one of nextjsRule. -/
def repoRedirectRules : List RedirectRule :=
  [nextjsRule]

/-- Observable side effects a load handler could perform. The handler
body in src/routes/docs/tutorials/nextjs/+page.ts contains none of
these: it only constructs and throws the redirect value. -/
inductive Effect where
  | networkCall (url : String)
  | fileRead (path : String)
  | stateWrite (key value : String)
deriving DecidableEq, Repr

/-- Mutable process state visible to a handler (a key-value store). -/
structure ProcessState where
  store : List (String × String)
deriving DecidableEq, Repr

/-- The load handler instrumented with effects and process state: the
body performs no network call, no file read and no state write, so the
emitted effect list is empty and the state is returned unchanged. -/
def loadInstrumented (event : LoadEvent) (s : ProcessState) :
    Except Redirect PageData × List Effect × ProcessState :=
  (load event, [], s)

/-- States of the page-load lifecycle for this route: the framework
starts in Loading and the handler result decides the terminal state. -/
inductive PageState where
  | Loading
  | Redirected (r : Redirect)
  | RenderedNormally (data : PageData)
deriving DecidableEq, Repr

/-- Whether a page state is the normal-rendering terminal state. -/
def PageState.isRenderedNormally : PageState → Bool
  | PageState.RenderedNormally _ => true
  | _ => false

/-- One step of the page-load lifecycle: from Loading, run the handler;
a thrown redirect moves to Redirected, a normal return would move to
RenderedNormally; terminal states do not change (no retries). -/
def loadStep (event : LoadEvent) : PageState → PageState
  | PageState.Loading =>
      match load event with
      | Except.error r => PageState.Redirected r
      | Except.ok d => PageState.RenderedNormally d
  | s => s

/-- Suspension structure of an asynchronous computation: either already
done, or suspended behind at least one pending continuation. -/
inductive Async (α : Type) where
  | done (value : α)
  | suspended (next : Unit → Async α)

/-- The load handler under its asynchronous calling convention
(async () => { throw redirect(...) }): the body contains no await, so
the returned computation is immediately done. -/
def loadAsync (event : LoadEvent) : Async (Except Redirect PageData) :=
  Async.done (load event)

/-- The result of the generalized resolver: either a redirect signal or
the UnmappedRoute classification for an absent source route. -/
inductive ResolveResult where
  | signal (r : Redirect)
  | UnmappedRoute
deriving DecidableEq, Repr

/-- Modelled from the spec: the generalized rule-table resolver of the
Design Notes and the error-handling section. It is not present under
src/ (the repository has one dedicated handler instead); per the spec
it looks the source route up in an immutable table and yields the
signal of the matching rule, or UnmappedRoute when no rule matches,
never a silent no-op and never an unhandled fault. -/
def resolve (table : List RedirectRule) (src : String) : ResolveResult :=
  match table.find? (fun r => r.source = src) with
  | some r => ResolveResult.signal (redirect r.status r.target)
  | none => ResolveResult.UnmappedRoute

/-- An apostrophe character, kept out of string literals. -/
def apos : String := String.mk [Char.ofNat 39]

/-- The recognized front-matter keys listed by the spec. -/
def recognizedFrontMatterKeys : List String :=
  ["layout", "title", "description", "date", "cover", "timeToRead",
   "author", "category", "featured"]

/-- Lines 1-13 of src/routes/blog/post/how-to-optimize-your-appwrite-project/+page.markdoc:
the complete front-matter header block (lines 1-11), the blank line 12,
and the first body paragraph (line 13). The remaining 241 lines are
further formatted-text body. -/
def postFileHead : List String :=
  [ "---"
  , "layout: post"
  , "title: How to optimize your Appwrite project for cost and performance"
  , "description: Learn how to optimize your Appwrite project, manage resource usage, costs, and ensure smooth performance as yout application scales."
  , "date: 2024-09-20"
  , "cover: /images/blog/how-to-optimize-your-appwrite-project/cover.png"
  , "timeToRead: 12"
  , "author: ebenezer-don"
  , "category: product"
  , "featured: false"
  , "---"
  , ""
  , "As your Appwrite project scales, performance and resource management become critical, not just to keep your app running smoothly, but also to avoid unexpected usage spikes. While Appwrite is designed to scale effortlessly, it" ++ apos ++ "s important to proactively optimize your usage so you don" ++ apos ++ "t reach resource limits prematurely. Effective optimization helps reduce costs, improves performance, and enhances user experience without compromising on functionality." ]

/-- Split a character list at the first colon-space into key and value. -/
def splitKeyValueChars : List Char → List Char × List Char
  | [] => ([], [])
  | ':' :: ' ' :: rest => ([], rest)
  | c :: rest =>
      let (k, v) := splitKeyValueChars rest
      (c :: k, v)

/-- Split a front-matter line at the first colon-space into key and value. -/
def splitKeyValue (line : String) : String × String :=
  let (k, v) := splitKeyValueChars line.data
  (String.mk k, String.mk v)

/-- Parse a front-matter document: a "---" line, header lines up to the
closing "---" line, then the body lines. -/
def parseFrontMatter (lines : List String) : Option (List (String × String) × List String) :=
  match lines with
  | "---" :: rest =>
      let header := rest.takeWhile (fun l => l ≠ "---")
      match rest.dropWhile (fun l => l ≠ "---") with
      | "---" :: body => some (header.map splitKeyValue, body)
      | _ => none
  | _ => none

/-- The keys of the front-matter header block of the blog post. -/
def postHeaderKeys : List String :=
  match parseFrontMatter postFileHead with
  | some (header, _) => header.map Prod.fst
  | none => []

/-- The body lines following the front-matter header of the blog post
(restricted to the embedded head of the file). -/
def postBody : List String :=
  match parseFrontMatter postFileHead with
  | some (_, body) => body
  | none => []

/-- C1: every invocation of the tutorial-index load handler yields a
redirect signal whose destination route is /docs/tutorials/nextjs/step-1
and whose status is 303, classified Temporary. -/
theorem C1_tutorial_index_redirect (event : LoadEvent) :
    load event = Except.error (redirect 303 "/docs/tutorials/nextjs/step-1")
    ∧ (redirect 303 "/docs/tutorials/nextjs/step-1").location = "/docs/tutorials/nextjs/step-1"
    ∧ (redirect 303 "/docs/tutorials/nextjs/step-1").status = 303
    ∧ classifyStatus 303 = some StatusClass.Temporary :=
  ⟨rfl, rfl, rfl, by decide⟩

/-- C2: the load handler is pure and deterministic: it emits no effect
(no network call, file read or state write), leaves the process state
unchanged, and a second invocation in the resulting process state yields
an output identical to the first. -/
theorem C2_load_pure_deterministic (event : LoadEvent) (s : ProcessState) :
    (loadInstrumented event s).2.1 = []
    ∧ (loadInstrumented event s).2.2 = s
    ∧ (loadInstrumented event ((loadInstrumented event s).2.2)).1
        = (loadInstrumented event s).1 :=
  ⟨rfl, rfl, rfl⟩

/-- C3: every redirect rule defined in the repository has a target path
different from its source path. -/
theorem C3_no_self_redirect (r : RedirectRule) (h : r ∈ repoRedirectRules) :
    r.target ≠ r.source := by
  simp only [repoRedirectRules, List.mem_singleton] at h
  subst h
  decide

/-- C3 witness: the single rule of the repository is in the rule list
and its target differs from its source. -/
theorem C3_no_self_redirect_witness :
    nextjsRule ∈ repoRedirectRules ∧ nextjsRule.target ≠ nextjsRule.source :=
  ⟨by decide, C3_no_self_redirect nextjsRule (by decide)⟩

/-- C4: the redirect is unconditional and cannot fail: any two
invocations of the load handler yield the same result, and that result
is always the fixed redirect signal, never a normally rendered page. -/
theorem C4_unconditional (e1 e2 : LoadEvent) :
    load e1 = load e2
    ∧ load e1 = Except.error (redirect 303 "/docs/tutorials/nextjs/step-1") :=
  ⟨rfl, rfl⟩

/-- C5: from Loading, a single transition of the page-load lifecycle
reaches the Redirected terminal state, the reached state is not a
normal-rendering state, and taking the step again leaves it unchanged
(no retries, no alternate terminal state). -/
theorem C5_single_transition_redirected (event : LoadEvent) :
    loadStep event PageState.Loading
      = PageState.Redirected (redirect 303 "/docs/tutorials/nextjs/step-1")
    ∧ (loadStep event PageState.Loading).isRenderedNormally = false
    ∧ loadStep event (loadStep event PageState.Loading)
        = loadStep event PageState.Loading :=
  ⟨rfl, rfl, rfl⟩

/-- C6: under its asynchronous calling convention the load handler is
immediately done, with no suspension point, and its value is the fixed
redirect signal; the embedding is a total function. -/
theorem C6_no_suspension (event : LoadEvent) :
    loadAsync event = Async.done (load event)
    ∧ load event = Except.error (redirect 303 "/docs/tutorials/nextjs/step-1") :=
  ⟨rfl, rfl⟩

/-- C7: invoking the generalized resolver with a source route absent
from the rule table yields the UnmappedRoute classification. -/
theorem C7_unmapped_route (table : List RedirectRule) (src : String)
    (h : ∀ r ∈ table, r.source ≠ src) :
    resolve table src = ResolveResult.UnmappedRoute := by
  have hnone : table.find? (fun r => r.source = src) = none := by
    rw [List.find?_eq_none]
    intro r hr
    simpa using h r hr
  simp [resolve, hnone]

/-- C7 witness: the route /docs/tutorials/svelte is absent from the
rule table of the repository, and resolving it yields UnmappedRoute. -/
theorem C7_unmapped_route_witness :
    (∀ r ∈ repoRedirectRules, r.source ≠ "/docs/tutorials/svelte")
    ∧ resolve repoRedirectRules "/docs/tutorials/svelte"
        = ResolveResult.UnmappedRoute :=
  ⟨by decide, C7_unmapped_route repoRedirectRules "/docs/tutorials/svelte" (by decide)⟩

/-- C8: every key of the front-matter header block of the blog post is
one of the recognized keys, and the header is followed by a nonempty
formatted-text body. -/
theorem C8_front_matter_keys_recognized :
    postHeaderKeys.all (fun k => recognizedFrontMatterKeys.contains k) = true
    ∧ postBody.any (fun l => l != "") = true := by
  decide

/-- C9: the load handler ignores its invocation argument entirely: any
two load events yield identical redirect signals. -/
theorem C9_event_noninterference (e1 e2 : LoadEvent) :
    load e1 = load e2 :=
  rfl

/-- C10: the destination route is a strict path extension of the source
route: the target equals the source followed by the nonempty segment
/step-1, the source is a proper prefix of the target, and the target
differs from the source. -/
theorem C10_target_extends_source :
    nextjsRule.target = nextjsRule.source ++ "/step-1"
    ∧ "/step-1" ≠ ""
    ∧ List.isPrefixOf nextjsRule.source.data nextjsRule.target.data = true
    ∧ nextjsRule.source.length < nextjsRule.target.length
    ∧ nextjsRule.target ≠ nextjsRule.source := by
  decide
